import Mathlib

/-!
Shallow embedding of the `lplrs2018` Arduino sketch (`src/lplrs2018.ino`).

The sketch controls a solenoid valve from three trigger sources (a manual
trigger on INT4/D2, a digital trigger on INT5/D3, and a drain session toggled
by a panel button on INT3/D18), plus a flow-calibration sequencer that drives
the digital-trigger pin synthetically from timer interrupts.

Every interrupt service routine of the sketch is translated into a pure
function on a machine-state record.  AVR `unsigned int` is 16 bits, so the
counters increment modulo `2 ^ 16`.  A write of the form `TIMSKn &= (0 << bit)`
in the source clears the *whole* register (the mask is literally zero), so the
corresponding functions clear both compare-channel enable bits of that timer;
`TIMSKn |= (1 << bit)` sets only the one bit.  Hardware flag registers (TIFRn)
are not modelled: they only affect when a pending interrupt is taken, which the
scheduling of events in the theorems below makes explicit.
-/

namespace Lplrs2018

/-- `const int hitVoltage = 255;` -/
def hitVoltage : Nat := 255

/-- `const int holdVoltage = 85;` -/
def holdVoltage : Nat := 85

/-- `const unsigned int maxDrainCycles = 200;` -/
def maxDrainCycles : Nat := 200

/-- AVR `unsigned int` is 16 bits wide. -/
def uintMod : Nat := 65536

/-- The machine state shared between the interrupt handlers and the loop:
the four volatile state booleans, the calibration variables, the drain
counter, the levels driven on the output pins, the level present on the
digital-trigger pin, and the timer counter registers and interrupt-enable
bits the sketch manipulates. -/
structure MachState where
  manualTrigger : Bool
  digitalTrigger : Bool
  draining : Bool
  valveOpen : Bool
  inCalibration : Bool
  sequenceComplete : Bool
  tickCounter : Nat
  maxTicks : Nat
  releaseCount : Nat
  maxReleases : Nat
  drainCycles : Nat
  /-- last `analogWrite(__valvePower, _)` value -/
  valvePower : Nat
  /-- last `digitalWrite(__LED, _)` level -/
  led : Bool
  /-- level on the `__digitalTrigger` pin (D3 / INT5) -/
  trigPinLevel : Bool
  /-- `pinMode(__digitalTrigger, OUTPUT)` vs `INPUT` -/
  trigPinIsOutput : Bool
  TCNT1 : Nat
  TCNT2 : Nat
  TCNT4 : Nat
  TCNT5 : Nat
  OCIE1A : Bool
  OCIE1B : Bool
  OCIE2A : Bool
  OCIE2B : Bool
  OCIE4A : Bool
  OCIE5A : Bool
deriving DecidableEq

/-- The valve-opening code repeated in the activation paths:
`valveOpen = true; analogWrite(__valvePower, hitVoltage); digitalWrite(__LED, HIGH);
TIFR4 = (1 << OCF4A); TCNT4 = 0; TIMSK4 |= (1 << OCIE4A);` -/
def openValve (s : MachState) : MachState :=
  { s with valveOpen := true, valvePower := hitVoltage, led := true,
           TCNT4 := 0, OCIE4A := true }

/-- The valve-closing code repeated in the deactivation paths:
`valveOpen = false; analogWrite(__valvePower, 0); digitalWrite(__LED, LOW);` -/
def closeValve (s : MachState) : MachState :=
  { s with valveOpen := false, valvePower := 0, led := false }

/-- `ISR (INT3_vect)` — panel-button raw edge: clear pending timer-2 channel-B
interrupt, reset `TCNT2`, enable `TIMER2_COMPB_vect`. -/
def INT3_vect (s : MachState) : MachState :=
  { s with TCNT2 := 0, OCIE2B := true }

/-- `ISR (INT4_vect)` — manual-trigger raw edge: clear pending timer-2
channel-A interrupt, reset `TCNT2`, enable `TIMER2_COMPA_vect`. -/
def INT4_vect (s : MachState) : MachState :=
  { s with TCNT2 := 0, OCIE2A := true }

/-- `ISR (INT5_vect)` — digital trigger: read the pin level and update the
digital-trigger flag and the valve. -/
def INT5_vect (s : MachState) : MachState :=
  if s.trigPinLevel then
    if !s.digitalTrigger then
      let s := { s with digitalTrigger := true }
      if !s.valveOpen then openValve s else s
    else s
  else
    if s.digitalTrigger then
      let s := { s with digitalTrigger := false }
      if !s.draining && !s.manualTrigger then closeValve s else s
    else s

/-- An externally driven level change on the `__digitalTrigger` pin: the pin
takes the new level and INT5 (configured for any logic change) runs. -/
def externalEdge (lvl : Bool) (s : MachState) : MachState :=
  INT5_vect { s with trigPinLevel := lvl }

/-- `digitalWrite(__digitalTrigger, lvl)` from the calibration sequencer: the
pin takes the driven level, and if the level changed, INT5 is pended and runs
once the current handler returns (INT5 reads no timer state, so applying it
here yields the same final state). -/
def digitalWriteTrigger (lvl : Bool) (s : MachState) : MachState :=
  if lvl = s.trigPinLevel then { s with trigPinLevel := lvl }
  else INT5_vect { s with trigPinLevel := lvl }

/-- `ISR (TIMER1_COMPA_vect)` — drain watchdog tick.  Note the short-circuit:
`drainCycles` is pre-incremented only when `draining` is true, and
`TIMSK1 &= (0 << OCIE1A)` zeroes the whole TIMSK1 register. -/
def TIMER1_COMPA_vect (s : MachState) : MachState :=
  if s.draining then
    let c := (s.drainCycles + 1) % uintMod
    if maxDrainCycles < c then
      let s := { s with drainCycles := c, OCIE1A := false, OCIE1B := false,
                        draining := false }
      if !s.manualTrigger && !s.digitalTrigger then closeValve s else s
    else { s with drainCycles := c }
  else s

/-- `ISR (TIMER1_COMPB_vect)` — calibration pulse-train clock.  The
pre-incremented `releaseCount` is compared against `maxReleases`; on the
then-branch a new release is started by driving the digital-trigger pin HIGH
and enabling the 1 ms timer-5 clock; on the else-branch
`TIMSK1 &= (0 << OCIE1B)` zeroes the whole TIMSK1 register and
`sequenceComplete` is raised. -/
def TIMER1_COMPB_vect (s : MachState) : MachState :=
  let r := (s.releaseCount + 1) % uintMod
  if r < s.maxReleases then
    let s := { s with releaseCount := r, tickCounter := 0,
                      trigPinIsOutput := true }
    let s := digitalWriteTrigger true s
    { s with TCNT5 := 0, OCIE5A := true }
  else
    { s with releaseCount := r, OCIE1A := false, OCIE1B := false,
             sequenceComplete := true, trigPinIsOutput := false }

/-- `ISR (TIMER2_COMPA_vect)` — manual-trigger debounce settle.
`pinLow` is the sampled `!digitalRead(__manualTrigger)` (the pin is on a
pull-up, so LOW means pressed).  `TIMSK2 &= (0 << OCIE2A)` zeroes the whole
TIMSK2 register. -/
def TIMER2_COMPA_vect (pinLow : Bool) (s : MachState) : MachState :=
  let s := { s with OCIE2A := false, OCIE2B := false }
  if pinLow then
    if !s.manualTrigger then
      let s := { s with manualTrigger := true }
      if !s.valveOpen then openValve s else s
    else s
  else
    if s.manualTrigger then
      let s := { s with manualTrigger := false }
      if !s.draining && !s.digitalTrigger then closeValve s else s
    else s

/-- `ISR (TIMER2_COMPB_vect)` — panel-button debounce settle.  `pinLow` is the
sampled `!digitalRead(__panelButton)`.  `TIMSK2 &= (0 << OCIE2B)` zeroes the
whole TIMSK2 register; in the drain-off path `TIMSK1 &= (0 << OCIE1A)` zeroes
the whole TIMSK1 register. -/
def TIMER2_COMPB_vect (pinLow : Bool) (s : MachState) : MachState :=
  let s := { s with OCIE2A := false, OCIE2B := false }
  if pinLow then
    if !s.draining then
      if !s.valveOpen then
        let s := { s with draining := true, drainCycles := 0 }
        let s := openValve s
        { s with TCNT1 := 0, OCIE1A := true }
      else s
    else
      let s := { s with OCIE1A := false, OCIE1B := false, draining := false }
      if !s.manualTrigger && !s.digitalTrigger then closeValve s else s
  else s

/-- `ISR (TIMER4_COMPA_vect)` — hit-to-hold transition: disable the timer and,
if the valve is still open, drop the output to the hold voltage. -/
def TIMER4_COMPA_vect (s : MachState) : MachState :=
  let s := { s with OCIE4A := false }
  if s.valveOpen then { s with valvePower := holdVoltage } else s

/-- `ISR (TIMER5_COMPA_vect)` — 1 ms pulse clock: post-increment
`tickCounter` and, once the old value exceeded `maxTicks`, disable the clock
and drive the digital-trigger pin LOW. -/
def TIMER5_COMPA_vect (s : MachState) : MachState :=
  let old := s.tickCounter
  let s := { s with tickCounter := (old + 1) % uintMod }
  if s.maxTicks < old then
    let s := { s with OCIE5A := false }
    digitalWriteTrigger false s
  else s

/-- The flow-calibration trial setup in `loop` (case 'F'):
`maxTicks = openTime[j]; releaseCount = 0; maxReleases = numOpens[j];
sequenceComplete = false; TCNT1 = 0; TIMSK1 |= (1 << OCIE1B);`
(the pending compare flag is deliberately not cleared, so the first
`TIMER1_COMPB_vect` runs immediately afterwards). -/
def startFlowTrial (d n : Nat) (s : MachState) : MachState :=
  { s with maxTicks := d % uintMod, releaseCount := 0,
           maxReleases := n % uintMod, sequenceComplete := false,
           TCNT1 := 0, OCIE1B := true }

/-- `inCalibration = true/false` around the flow-calibration routine. -/
def setInCalibration (b : Bool) (s : MachState) : MachState :=
  { s with inCalibration := b }

/-- The state after `setup()`: all flags false, output at zero, LED low, all
modelled timer-interrupt enables clear, trigger pin an input reading LOW
through its pull-down. -/
def initState : MachState :=
  { manualTrigger := false, digitalTrigger := false, draining := false,
    valveOpen := false, inCalibration := false, sequenceComplete := false,
    tickCounter := 0, maxTicks := 0, releaseCount := 0, maxReleases := 0,
    drainCycles := 0, valvePower := 0, led := false,
    trigPinLevel := false, trigPinIsOutput := false,
    TCNT1 := 0, TCNT2 := 0, TCNT4 := 0, TCNT5 := 0,
    OCIE1A := false, OCIE1B := false, OCIE2A := false, OCIE2B := false,
    OCIE4A := false, OCIE5A := false }

/-- The atomic events of a run: the raw-edge and timer interrupts of the
sketch, an externally driven level on the digital-trigger line, and the two
cooperative-context writes from `loop`. -/
inductive Ev where
  | manualEdge : Ev
  | panelEdge : Ev
  | digitalEdge (lvl : Bool) : Ev
  | manualSettle (pinLow : Bool) : Ev
  | panelSettle (pinLow : Bool) : Ev
  | drainTick : Ev
  | calClock : Ev
  | pulseClock : Ev
  | holdFire : Ev
  | flowTrial (d n : Nat) : Ev
  | calFlag (b : Bool) : Ev
deriving DecidableEq

/-- Event semantics: each event runs the corresponding handler body. -/
def stepEv : Ev → MachState → MachState
  | Ev.manualEdge => INT4_vect
  | Ev.panelEdge => INT3_vect
  | Ev.digitalEdge lvl => externalEdge lvl
  | Ev.manualSettle pinLow => TIMER2_COMPA_vect pinLow
  | Ev.panelSettle pinLow => TIMER2_COMPB_vect pinLow
  | Ev.drainTick => TIMER1_COMPA_vect
  | Ev.calClock => TIMER1_COMPB_vect
  | Ev.pulseClock => TIMER5_COMPA_vect
  | Ev.holdFire => TIMER4_COMPA_vect
  | Ev.flowTrial d n => startFlowTrial d n
  | Ev.calFlag b => setInCalibration b

/-- States reachable from the post-`setup()` state by any sequence of
events. -/
inductive Reach : MachState → Prop where
  | init : Reach initState
  | step : ∀ (e : Ev) (s : MachState), Reach s → Reach (stepEv e s)

/-!
## Derived definitions for the timed claims

Timer 2 runs in CTC mode with `OCR2A = OCR2B = 124` and timer 1 with
`OCR1A = OCR1B = 15624`, so a pending compare interrupt fires after
`OCR + 1 - TCNT` further prescaled ticks of the shared counter.
-/

/-- Prescaled timer-2 ticks until a pending `TIMER2_COMPB_vect` fires
(`OCR2B = 124`). -/
def remainingTicks2B (s : MachState) : Nat := 125 - s.TCNT2

/-- Prescaled timer-1 ticks until a pending `TIMER1_COMPA_vect` fires
(`OCR1A = 15624`). -/
def remainingTicks1A (s : MachState) : Nat := 15625 - s.TCNT1

/-- One firing opportunity of the 1 ms pulse clock: the hardware runs
`TIMER5_COMPA_vect` only while its interrupt-enable bit `OCIE5A` is set. -/
def pulseClockTick (s : MachState) : MachState :=
  if s.OCIE5A then TIMER5_COMPA_vect s else s

/-- Run one handler while counting rising edges of the digital-trigger pin:
the second component increments exactly when the step drives the pin from LOW
to HIGH, i.e. when a calibration release is asserted. -/
def countingStep (f : MachState → MachState) (p : MachState × Nat) :
    MachState × Nat :=
  (f p.1,
   p.2 + if p.1.trigPinLevel = false ∧ (f p.1).trigPinLevel = true then 1
         else 0)

/-- One second of a calibration trial with pulse duration `d`: the 1 Hz
`TIMER1_COMPB_vect` fires once, then the 1 ms pulse clock gets `d + 2` firing
opportunities (a release lasts at most `d + 2` ms and `d + 2 ≤ 222 < 1000` for
every entry of the sketch's `openTime` table, so the release is over before
the next 1 Hz firing). -/
def trialRound (d : Nat) (p : MachState × Nat) : MachState × Nat :=
  (countingStep pulseClockTick)^[d + 2] (countingStep TIMER1_COMPB_vect p)

/-- A full calibration trial `(duration d, count n)`: the `loop` code arms the
pulse-train timer without clearing the stale compare flag, so the first
`TIMER1_COMPB_vect` fires immediately, and the trial runs until the `n`-th
firing raises `sequenceComplete`.  The second component counts the releases
actually asserted on the digital-trigger pin. -/
def flowTrialRun (d n : Nat) (s : MachState) : MachState × Nat :=
  (trialRound d)^[n] (startFlowTrial d n s, 0)

/-- The machine state right after a `TIMER1_COMPB_vect` firing has asserted
release `r` of a flow trial `(d, n)` started from the post-`setup()` state:
the digital-trigger pin is driven HIGH, the valve has opened through the
normal INT5 path, and the 1 ms pulse clock is armed with `tickCounter = 0`. -/
def trialPulseState (d n r : Nat) : MachState :=
  { initState with digitalTrigger := true, valveOpen := true,
                   valvePower := hitVoltage, led := true,
                   trigPinLevel := true, trigPinIsOutput := true,
                   maxTicks := d, releaseCount := r, maxReleases := n,
                   sequenceComplete := false, tickCounter := 0,
                   TCNT1 := 0, TCNT4 := 0, TCNT5 := 0,
                   OCIE1B := true, OCIE4A := true, OCIE5A := true }

/-- The machine state between releases of a flow trial `(d, n)` started from
the post-`setup()` state, after release `r` has been asserted and deasserted:
the pin is LOW again, the valve closed through the normal INT5 path, and the
pulse clock has disabled itself after `d + 2` firings. -/
def trialMidState (d n r : Nat) : MachState :=
  { initState with trigPinIsOutput := true, maxTicks := d,
                   releaseCount := r, maxReleases := n,
                   sequenceComplete := false, tickCounter := d + 2,
                   TCNT1 := 0, TCNT4 := 0, TCNT5 := 0,
                   OCIE1B := true, OCIE4A := true }

/-- The machine state after the final (`n`-th) `TIMER1_COMPB_vect` firing of a
flow trial `(d, n)` started from the post-`setup()` state: the pulse-train
timer is disabled, the pin is back to an input, and `sequenceComplete` is
raised. -/
def trialEndState (d n : Nat) : MachState :=
  { initState with maxTicks := d, releaseCount := n, maxReleases := n,
                   sequenceComplete := true, tickCounter := d + 2,
                   TCNT1 := 0, TCNT4 := 0, TCNT5 := 0, OCIE4A := true }

/-- A concrete state with a panel-button debounce check pending mid-countdown
(`OCIE2B` set, `TCNT2 = 100`). -/
def pendingPanelState : MachState :=
  { initState with OCIE2B := true, TCNT2 := 100 }

/-- A concrete state with a drain session active and the 1 s watchdog tick
pending mid-countdown (`OCIE1A` set, `TCNT1 = 5000`). -/
def pendingDrainState : MachState :=
  { initState with draining := true, valveOpen := true,
                   valvePower := holdVoltage, led := true, OCIE1A := true,
                   TCNT1 := 5000 }

/-!
## The arbitration invariant

The inductive invariant tying the valve state to the three trigger flags and
the output level: the valve is open exactly when some flag is set; a closed
valve drives output 0; an open valve drives the hit or the hold voltage.
-/

/-- The arbitration invariant. -/
def Inv (s : MachState) : Prop :=
  s.valveOpen = (s.manualTrigger || s.digitalTrigger || s.draining) ∧
  (s.valveOpen = false → s.valvePower = 0) ∧
  (s.valveOpen = true → s.valvePower = hitVoltage ∨ s.valvePower = holdVoltage)

theorem inv_initState : Inv initState := by
  refine ⟨rfl, fun _ => rfl, fun h => ?_⟩
  simp [initState] at h

set_option maxRecDepth 8000

theorem inv_INT5_vect (s : MachState) (h : Inv s) : Inv (INT5_vect s) := by
  obtain ⟨m, d, dr, v, ic, sc, tc, mt, rc, mr, dc, vp, led, tpl, tpo,
    t1, t2, t4, t5, o1a, o1b, o2a, o2b, o4a, o5a⟩ := s
  obtain ⟨h1, h2, h3⟩ := h
  cases m <;> cases d <;> cases dr <;> cases v <;> cases tpl <;>
    simp_all [Inv, INT5_vect, openValve, closeValve]

theorem inv_TIMER2_COMPA_vect (pinLow : Bool) (s : MachState) (h : Inv s) :
    Inv (TIMER2_COMPA_vect pinLow s) := by
  obtain ⟨m, d, dr, v, ic, sc, tc, mt, rc, mr, dc, vp, led, tpl, tpo,
    t1, t2, t4, t5, o1a, o1b, o2a, o2b, o4a, o5a⟩ := s
  obtain ⟨h1, h2, h3⟩ := h
  cases m <;> cases d <;> cases dr <;> cases v <;> cases pinLow <;>
    simp_all [Inv, TIMER2_COMPA_vect, openValve, closeValve]

theorem inv_TIMER2_COMPB_vect (pinLow : Bool) (s : MachState) (h : Inv s) :
    Inv (TIMER2_COMPB_vect pinLow s) := by
  obtain ⟨m, d, dr, v, ic, sc, tc, mt, rc, mr, dc, vp, led, tpl, tpo,
    t1, t2, t4, t5, o1a, o1b, o2a, o2b, o4a, o5a⟩ := s
  obtain ⟨h1, h2, h3⟩ := h
  cases m <;> cases d <;> cases dr <;> cases v <;> cases pinLow <;>
    simp_all [Inv, TIMER2_COMPB_vect, openValve, closeValve]

theorem inv_TIMER1_COMPA_vect (s : MachState) (h : Inv s) :
    Inv (TIMER1_COMPA_vect s) := by
  obtain ⟨m, d, dr, v, ic, sc, tc, mt, rc, mr, dc, vp, led, tpl, tpo,
    t1, t2, t4, t5, o1a, o1b, o2a, o2b, o4a, o5a⟩ := s
  obtain ⟨h1, h2, h3⟩ := h
  cases m <;> cases d <;> cases dr <;> cases v <;>
    simp_all [Inv, TIMER1_COMPA_vect, closeValve] <;> split <;> simp_all

theorem inv_TIMER4_COMPA_vect (s : MachState) (h : Inv s) :
    Inv (TIMER4_COMPA_vect s) := by
  obtain ⟨m, d, dr, v, ic, sc, tc, mt, rc, mr, dc, vp, led, tpl, tpo,
    t1, t2, t4, t5, o1a, o1b, o2a, o2b, o4a, o5a⟩ := s
  obtain ⟨h1, h2, h3⟩ := h
  cases v <;> simp_all [Inv, TIMER4_COMPA_vect]

theorem inv_digitalWriteTrigger (lvl : Bool) (s : MachState) (h : Inv s) :
    Inv (digitalWriteTrigger lvl s) := by
  unfold digitalWriteTrigger
  split
  · obtain ⟨h1, h2, h3⟩ := h; exact ⟨h1, h2, h3⟩
  · exact inv_INT5_vect _ ⟨h.1, h.2.1, h.2.2⟩

theorem inv_TIMER1_COMPB_vect (s : MachState) (h : Inv s) :
    Inv (TIMER1_COMPB_vect s) := by
  simp only [TIMER1_COMPB_vect]
  split
  · have h5 : Inv (digitalWriteTrigger true
      { s with releaseCount := (s.releaseCount + 1) % uintMod,
               tickCounter := 0, trigPinIsOutput := true }) :=
      inv_digitalWriteTrigger true _ ⟨h.1, h.2.1, h.2.2⟩
    exact ⟨h5.1, h5.2.1, h5.2.2⟩
  · exact ⟨h.1, h.2.1, h.2.2⟩

theorem inv_TIMER5_COMPA_vect (s : MachState) (h : Inv s) :
    Inv (TIMER5_COMPA_vect s) := by
  simp only [TIMER5_COMPA_vect]
  split
  · exact inv_digitalWriteTrigger false _ ⟨h.1, h.2.1, h.2.2⟩
  · exact ⟨h.1, h.2.1, h.2.2⟩

theorem inv_externalEdge (lvl : Bool) (s : MachState) (h : Inv s) :
    Inv (externalEdge lvl s) :=
  inv_INT5_vect _ ⟨h.1, h.2.1, h.2.2⟩

theorem inv_stepEv (e : Ev) (s : MachState) (h : Inv s) : Inv (stepEv e s) := by
  cases e with
  | manualEdge => exact ⟨h.1, h.2.1, h.2.2⟩
  | panelEdge => exact ⟨h.1, h.2.1, h.2.2⟩
  | digitalEdge lvl => exact inv_externalEdge lvl s h
  | manualSettle pinLow => exact inv_TIMER2_COMPA_vect pinLow s h
  | panelSettle pinLow => exact inv_TIMER2_COMPB_vect pinLow s h
  | drainTick => exact inv_TIMER1_COMPA_vect s h
  | calClock => exact inv_TIMER1_COMPB_vect s h
  | pulseClock => exact inv_TIMER5_COMPA_vect s h
  | holdFire => exact inv_TIMER4_COMPA_vect s h
  | flowTrial d n => exact ⟨h.1, h.2.1, h.2.2⟩
  | calFlag b => exact ⟨h.1, h.2.1, h.2.2⟩

theorem inv_of_reach (s : MachState) (h : Reach s) : Inv s := by
  induction h with
  | init => exact inv_initState
  | step e s _ ih => exact inv_stepEv e s ih

/-- C1: after every completed trigger transition — i.e. in every state
reachable by any sequence of debounced manual settles, digital-trigger level
decodes, panel-button settles, drain-watchdog ticks and the other events of
the sketch — the valve is closed (`valveOpen = false` and output 0) if and
only if `manualTrigger`, `digitalTrigger` and `draining` are all false. -/
theorem valve_closed_iff_sources_inactive (s : MachState) (h : Reach s) :
    (s.valveOpen = false ∧ s.valvePower = 0) ↔
      (s.manualTrigger = false ∧ s.digitalTrigger = false ∧
       s.draining = false) := by
  obtain ⟨h1, h2, h3⟩ := inv_of_reach s h
  constructor
  · rintro ⟨hv, -⟩
    rw [hv] at h1
    refine ⟨?_, ?_, ?_⟩ <;> cases hm : s.manualTrigger <;>
      cases hd : s.digitalTrigger <;> cases hr : s.draining <;> simp_all
  · rintro ⟨hm, hd, hr⟩
    rw [hm, hd, hr] at h1
    simp only [Bool.or_self] at h1
    exact ⟨h1, h2 h1⟩

theorem valve_closed_iff_sources_inactive_witness :
    ((stepEv (Ev.digitalEdge true) initState).valveOpen = false ∧
     (stepEv (Ev.digitalEdge true) initState).valvePower = 0) ↔
      ((stepEv (Ev.digitalEdge true) initState).manualTrigger = false ∧
       (stepEv (Ev.digitalEdge true) initState).digitalTrigger = false ∧
       (stepEv (Ev.digitalEdge true) initState).draining = false) :=
  valve_closed_iff_sources_inactive _
    (Reach.step (Ev.digitalEdge true) initState Reach.init)

/-- C10: the debounced manual-trigger handler and the digital-trigger handler
never read `inCalibration`: running either of them commutes with flipping the
`inCalibration` flag, so the resulting flag updates and valve-output changes
are identical in two runs that differ only in that flag. -/
theorem trigger_handling_independent_of_inCalibration
    (s : MachState) (pinLow lvl b : Bool) :
    TIMER2_COMPA_vect pinLow (setInCalibration b s) =
      setInCalibration b (TIMER2_COMPA_vect pinLow s) ∧
    externalEdge lvl (setInCalibration b s) =
      setInCalibration b (externalEdge lvl s) := by
  obtain ⟨m, d, dr, v, ic, sc, tc, mt, rc, mr, dc, vp, led, tpl, tpo,
    t1, t2, t4, t5, o1a, o1b, o2a, o2b, o4a, o5a⟩ := s
  constructor
  · cases pinLow <;> cases m <;> cases v <;> cases dr <;> cases d <;> rfl
  · cases lvl <;> cases d <;> cases v <;> cases dr <;> cases m <;> rfl

/-- C5: on deactivation of any one source from a reachable state, the valve
closes (output 0, `valveOpen = false`) iff the other two source flags are
false; if another source is still active, the output level and the open state
are unchanged.  Stated for all three deactivation paths: manual settle with
the pin released, digital trigger decoded low, and panel settle while
draining. -/
theorem deactivation_closes_iff_others_inactive (s : MachState)
    (h : Reach s) :
    (s.manualTrigger = true →
      (((TIMER2_COMPA_vect false s).valveOpen = false ∧
        (TIMER2_COMPA_vect false s).valvePower = 0) ↔
          (s.digitalTrigger = false ∧ s.draining = false)) ∧
      (s.digitalTrigger = true ∨ s.draining = true →
        (TIMER2_COMPA_vect false s).valvePower = s.valvePower ∧
        (TIMER2_COMPA_vect false s).valveOpen = s.valveOpen)) ∧
    (s.digitalTrigger = true →
      (((externalEdge false s).valveOpen = false ∧
        (externalEdge false s).valvePower = 0) ↔
          (s.manualTrigger = false ∧ s.draining = false)) ∧
      (s.manualTrigger = true ∨ s.draining = true →
        (externalEdge false s).valvePower = s.valvePower ∧
        (externalEdge false s).valveOpen = s.valveOpen)) ∧
    (s.draining = true →
      (((TIMER2_COMPB_vect true s).valveOpen = false ∧
        (TIMER2_COMPB_vect true s).valvePower = 0) ↔
          (s.manualTrigger = false ∧ s.digitalTrigger = false)) ∧
      (s.manualTrigger = true ∨ s.digitalTrigger = true →
        (TIMER2_COMPB_vect true s).valvePower = s.valvePower ∧
        (TIMER2_COMPB_vect true s).valveOpen = s.valveOpen)) := by
  obtain ⟨h1, h2, h3⟩ := inv_of_reach s h
  obtain ⟨m, d, dr, v, ic, sc, tc, mt, rc, mr, dc, vp, led, tpl, tpo,
    t1, t2, t4, t5, o1a, o1b, o2a, o2b, o4a, o5a⟩ := s
  cases m <;> cases d <;> cases dr <;> cases v <;>
    simp_all [TIMER2_COMPA_vect, TIMER2_COMPB_vect, externalEdge, INT5_vect,
      closeValve]

theorem deactivation_closes_iff_others_inactive_witness :
    (stepEv (Ev.manualSettle true) (stepEv (Ev.digitalEdge true)
        initState)).digitalTrigger = true ∧
    ((((externalEdge false (stepEv (Ev.manualSettle true)
          (stepEv (Ev.digitalEdge true) initState))).valveOpen = false ∧
       (externalEdge false (stepEv (Ev.manualSettle true)
          (stepEv (Ev.digitalEdge true) initState))).valvePower = 0) ↔
        ((stepEv (Ev.manualSettle true) (stepEv (Ev.digitalEdge true)
            initState)).manualTrigger = false ∧
         (stepEv (Ev.manualSettle true) (stepEv (Ev.digitalEdge true)
            initState)).draining = false)) ∧
     ((stepEv (Ev.manualSettle true) (stepEv (Ev.digitalEdge true)
          initState)).manualTrigger = true ∨
      (stepEv (Ev.manualSettle true) (stepEv (Ev.digitalEdge true)
          initState)).draining = true →
       (externalEdge false (stepEv (Ev.manualSettle true)
          (stepEv (Ev.digitalEdge true) initState))).valvePower =
         (stepEv (Ev.manualSettle true) (stepEv (Ev.digitalEdge true)
            initState)).valvePower ∧
       (externalEdge false (stepEv (Ev.manualSettle true)
          (stepEv (Ev.digitalEdge true) initState))).valveOpen =
         (stepEv (Ev.manualSettle true) (stepEv (Ev.digitalEdge true)
            initState)).valveOpen)) := by
  refine ⟨by decide, ?_⟩
  exact (deactivation_closes_iff_others_inactive _
    (Reach.step (Ev.manualSettle true) _
      (Reach.step (Ev.digitalEdge true) initState Reach.init))).2.1
    (by decide)

/-!
## Output-level writes

Every handler writes the valve output only to 0 (close), `hitVoltage` (open)
or — in the hold-transition handler alone — `holdVoltage`.  The following
lemmas record that no handler other than `TIMER4_COMPA_vect` can make the
output become the hold level.
-/

theorem hold_of_INT5_vect (s : MachState)
    (h : (INT5_vect s).valvePower = holdVoltage) : s.valvePower = holdVoltage := by
  obtain ⟨m, d, dr, v, ic, sc, tc, mt, rc, mr, dc, vp, led, tpl, tpo,
    t1, t2, t4, t5, o1a, o1b, o2a, o2b, o4a, o5a⟩ := s
  cases tpl <;> cases d <;> cases v <;> cases dr <;> cases m <;>
    simp_all [INT5_vect, openValve, closeValve, hitVoltage, holdVoltage]

theorem hold_of_digitalWriteTrigger (lvl : Bool) (s : MachState)
    (h : (digitalWriteTrigger lvl s).valvePower = holdVoltage) :
    s.valvePower = holdVoltage := by
  unfold digitalWriteTrigger at h
  split at h
  · exact h
  · have h2 := hold_of_INT5_vect _ h
    exact h2

theorem hold_of_TIMER1_COMPA_vect (s : MachState)
    (h : (TIMER1_COMPA_vect s).valvePower = holdVoltage) :
    s.valvePower = holdVoltage := by
  simp only [TIMER1_COMPA_vect] at h
  split at h
  · split at h
    · split at h
      · simp [closeValve, holdVoltage] at h
      · exact h
    · exact h
  · exact h

theorem hold_of_TIMER1_COMPB_vect (s : MachState)
    (h : (TIMER1_COMPB_vect s).valvePower = holdVoltage) :
    s.valvePower = holdVoltage := by
  simp only [TIMER1_COMPB_vect] at h
  split at h
  · have h2 := hold_of_digitalWriteTrigger true _ h
    exact h2
  · exact h

theorem hold_of_TIMER2_COMPA_vect (pinLow : Bool) (s : MachState)
    (h : (TIMER2_COMPA_vect pinLow s).valvePower = holdVoltage) :
    s.valvePower = holdVoltage := by
  obtain ⟨m, d, dr, v, ic, sc, tc, mt, rc, mr, dc, vp, led, tpl, tpo,
    t1, t2, t4, t5, o1a, o1b, o2a, o2b, o4a, o5a⟩ := s
  cases pinLow <;> cases m <;> cases v <;> cases dr <;> cases d <;>
    simp_all [TIMER2_COMPA_vect, openValve, closeValve, hitVoltage, holdVoltage]

theorem hold_of_TIMER2_COMPB_vect (pinLow : Bool) (s : MachState)
    (h : (TIMER2_COMPB_vect pinLow s).valvePower = holdVoltage) :
    s.valvePower = holdVoltage := by
  obtain ⟨m, d, dr, v, ic, sc, tc, mt, rc, mr, dc, vp, led, tpl, tpo,
    t1, t2, t4, t5, o1a, o1b, o2a, o2b, o4a, o5a⟩ := s
  cases pinLow <;> cases m <;> cases v <;> cases dr <;> cases d <;>
    simp_all [TIMER2_COMPB_vect, openValve, closeValve, hitVoltage, holdVoltage]

theorem hold_of_TIMER5_COMPA_vect (s : MachState)
    (h : (TIMER5_COMPA_vect s).valvePower = holdVoltage) :
    s.valvePower = holdVoltage := by
  simp only [TIMER5_COMPA_vect] at h
  split at h
  · have h2 := hold_of_digitalWriteTrigger false _ h
    exact h2
  · exact h

/-- C6: every opening from Closed drives the output at `hitVoltage` and arms
the hold-transition timer (for all three activation paths); when the
hold-transition timer fires, the output becomes `holdVoltage` exactly when the
valve is still open and is unchanged otherwise; and, along every reachable
step, the output becomes the hold level only at a hold-transition firing from
a state at the hit level with the valve open — it never reaches the hold level
without having passed through the hit level. -/
theorem hit_then_hold_profile :
    (∀ s : MachState, s.manualTrigger = false → s.valveOpen = false →
      (TIMER2_COMPA_vect true s).valvePower = hitVoltage ∧
      (TIMER2_COMPA_vect true s).OCIE4A = true ∧
      (TIMER2_COMPA_vect true s).TCNT4 = 0 ∧
      (TIMER2_COMPA_vect true s).valveOpen = true) ∧
    (∀ s : MachState, s.digitalTrigger = false → s.valveOpen = false →
      (externalEdge true s).valvePower = hitVoltage ∧
      (externalEdge true s).OCIE4A = true ∧
      (externalEdge true s).TCNT4 = 0 ∧
      (externalEdge true s).valveOpen = true) ∧
    (∀ s : MachState, s.draining = false → s.valveOpen = false →
      (TIMER2_COMPB_vect true s).valvePower = hitVoltage ∧
      (TIMER2_COMPB_vect true s).OCIE4A = true ∧
      (TIMER2_COMPB_vect true s).TCNT4 = 0 ∧
      (TIMER2_COMPB_vect true s).valveOpen = true) ∧
    (∀ s : MachState,
      (TIMER4_COMPA_vect s).valvePower =
        (if s.valveOpen then holdVoltage else s.valvePower)) ∧
    (∀ (s : MachState) (e : Ev), Reach s →
      (stepEv e s).valvePower = holdVoltage →
      s.valvePower = holdVoltage ∨
        (s.valvePower = hitVoltage ∧ s.valveOpen = true ∧ e = Ev.holdFire)) := by
  refine ⟨?_, ?_, ?_, ?_, ?_⟩
  · intro s hm hv
    simp [TIMER2_COMPA_vect, hm, hv, openValve]
  · intro s hd hv
    simp [externalEdge, INT5_vect, hd, hv, openValve]
  · intro s hr hv
    simp [TIMER2_COMPB_vect, hr, hv, openValve]
  · intro s
    unfold TIMER4_COMPA_vect
    split <;> simp_all
  · intro s e hreach hhold
    obtain ⟨h1, h2, h3⟩ := inv_of_reach s hreach
    cases e with
    | manualEdge => exact Or.inl hhold
    | panelEdge => exact Or.inl hhold
    | digitalEdge lvl =>
        refine Or.inl ?_
        have h2 := hold_of_INT5_vect _ hhold
        exact h2
    | manualSettle pinLow =>
        exact Or.inl (hold_of_TIMER2_COMPA_vect pinLow s hhold)
    | panelSettle pinLow =>
        exact Or.inl (hold_of_TIMER2_COMPB_vect pinLow s hhold)
    | drainTick => exact Or.inl (hold_of_TIMER1_COMPA_vect s hhold)
    | calClock => exact Or.inl (hold_of_TIMER1_COMPB_vect s hhold)
    | pulseClock => exact Or.inl (hold_of_TIMER5_COMPA_vect s hhold)
    | holdFire =>
        cases hv : s.valveOpen with
        | false =>
            refine Or.inl ?_
            rw [← hhold]
            simp [stepEv, TIMER4_COMPA_vect, hv]
        | true =>
            rcases h3 hv with hp | hp
            · exact Or.inr ⟨hp, rfl, rfl⟩
            · exact Or.inl hp
    | flowTrial d n => exact Or.inl hhold
    | calFlag b => exact Or.inl hhold

theorem hit_then_hold_profile_witness :
    ((externalEdge true initState).valvePower = hitVoltage ∧
     (externalEdge true initState).OCIE4A = true ∧
     (externalEdge true initState).TCNT4 = 0 ∧
     (externalEdge true initState).valveOpen = true) ∧
    (stepEv Ev.holdFire (stepEv (Ev.digitalEdge true) initState)).valvePower
      = holdVoltage ∧
    ((stepEv (Ev.digitalEdge true) initState).valvePower = holdVoltage ∨
      ((stepEv (Ev.digitalEdge true) initState).valvePower = hitVoltage ∧
       (stepEv (Ev.digitalEdge true) initState).valveOpen = true ∧
       Ev.holdFire = Ev.holdFire)) := by
  refine ⟨?_, by decide, ?_⟩
  · exact (hit_then_hold_profile.2.1 initState (by decide) (by decide))
  · exact hit_then_hold_profile.2.2.2.2 _ Ev.holdFire
      (Reach.step (Ev.digitalEdge true) initState Reach.init) (by decide)

/-- C7 counterexample: with the valve already open through the digital
trigger and `draining` false, a debounced panel-button press leaves
`draining` false — the Drain source's flag is *not* updated to true, because
the whole activation body is guarded by `!valveOpen`. -/
theorem panel_press_while_open_sets_no_flag :
    (stepEv (Ev.digitalEdge true) initState).valveOpen = true ∧
    (stepEv (Ev.digitalEdge true) initState).draining = false ∧
    (stepEv (Ev.panelSettle true)
      (stepEv (Ev.digitalEdge true) initState)).draining = false := by
  decide

/-- C7 amended: activating Manual or External while the valve is already open
leaves the output level unchanged and still sets the source's flag; but a
debounced panel press while the valve is open and `draining` is false is a
complete no-op apart from clearing the TIMSK2 enable bits — in particular the
Drain flag is *not* set. -/
theorem activation_while_open_output_unchanged :
    (∀ s : MachState, s.valveOpen = true → s.manualTrigger = false →
      (TIMER2_COMPA_vect true s).manualTrigger = true ∧
      (TIMER2_COMPA_vect true s).valvePower = s.valvePower ∧
      (TIMER2_COMPA_vect true s).valveOpen = true) ∧
    (∀ s : MachState, s.valveOpen = true → s.digitalTrigger = false →
      (externalEdge true s).digitalTrigger = true ∧
      (externalEdge true s).valvePower = s.valvePower ∧
      (externalEdge true s).valveOpen = true) ∧
    (∀ s : MachState, s.valveOpen = true → s.draining = false →
      TIMER2_COMPB_vect true s =
        { s with OCIE2A := false, OCIE2B := false }) := by
  refine ⟨?_, ?_, ?_⟩
  · intro s hv hm
    simp [TIMER2_COMPA_vect, hm, hv]
  · intro s hv hd
    simp [externalEdge, INT5_vect, hd, hv]
  · intro s hv hr
    simp [TIMER2_COMPB_vect, hr, hv]

theorem activation_while_open_output_unchanged_witness :
    ((TIMER2_COMPA_vect true (externalEdge true initState)).manualTrigger
        = true ∧
     (TIMER2_COMPA_vect true (externalEdge true initState)).valvePower =
       (externalEdge true initState).valvePower ∧
     (TIMER2_COMPA_vect true (externalEdge true initState)).valveOpen
        = true) ∧
    TIMER2_COMPB_vect true (externalEdge true initState) =
      { externalEdge true initState with OCIE2A := false,
                                         OCIE2B := false } := by
  refine ⟨?_, ?_⟩
  · exact activation_while_open_output_unchanged.1 _ (by decide) (by decide)
  · exact activation_while_open_output_unchanged.2.2 _ (by decide) (by decide)

/-- C3: the sketch's own comment on `maxDrainCycles = 200` promises a 200 s
drain, and the claim says the watchdog forces `draining` false on the
`maxDrainCycles`-th coarse tick; but `++drainCycles > maxDrainCycles` only
fires on tick `maxDrainCycles + 1`: after a drain session starts from idle,
200 watchdog ticks leave `draining` true, and tick 201 forces it false and
closes the valve. -/
theorem drain_watchdog_fires_on_tick_201 :
    (TIMER2_COMPB_vect true initState).draining = true ∧
    (TIMER2_COMPB_vect true initState).drainCycles = 0 ∧
    (TIMER1_COMPA_vect^[maxDrainCycles]
      (TIMER2_COMPB_vect true initState)).draining = true ∧
    (TIMER1_COMPA_vect^[maxDrainCycles + 1]
      (TIMER2_COMPB_vect true initState)).draining = false ∧
    (TIMER1_COMPA_vect^[maxDrainCycles + 1]
      (TIMER2_COMPB_vect true initState)).valveOpen = false ∧
    (TIMER1_COMPA_vect^[maxDrainCycles + 1]
      (TIMER2_COMPB_vect true initState)).valvePower = 0 := by
  decide

/-- C8 counterexample: activate a drain session from idle, let three watchdog
ticks elapse, then deactivate it with a debounced panel press: `draining`
goes false but `drainCycles` stays 3 — deactivation does not reset the
elapsed counter. -/
theorem drain_counter_not_reset_on_deactivation :
    (TIMER1_COMPA_vect^[3] (TIMER2_COMPB_vect true initState)).draining
        = true ∧
    (TIMER1_COMPA_vect^[3] (TIMER2_COMPB_vect true initState)).drainCycles
        = 3 ∧
    (TIMER2_COMPB_vect true
      (TIMER1_COMPA_vect^[3]
        (TIMER2_COMPB_vect true initState))).draining = false ∧
    (TIMER2_COMPB_vect true
      (TIMER1_COMPA_vect^[3]
        (TIMER2_COMPB_vect true initState))).drainCycles = 3 := by
  decide

/-- C8 amended: neither drain-deactivation path resets the elapsed counter —
the panel-toggle path leaves `drainCycles` unchanged and the watchdog path
leaves it at the just-incremented value `maxDrainCycles + 1`; instead the
counter is reset to zero as part of each drain *activation*. -/
theorem drain_counter_reset_at_activation (s : MachState) :
    (s.draining = true →
      (TIMER2_COMPB_vect true s).draining = false ∧
      (TIMER2_COMPB_vect true s).drainCycles = s.drainCycles) ∧
    (s.draining = true → maxDrainCycles < (s.drainCycles + 1) % uintMod →
      (TIMER1_COMPA_vect s).draining = false ∧
      (TIMER1_COMPA_vect s).drainCycles = (s.drainCycles + 1) % uintMod) ∧
    (s.draining = false → s.valveOpen = false →
      (TIMER2_COMPB_vect true s).draining = true ∧
      (TIMER2_COMPB_vect true s).drainCycles = 0) := by
  refine ⟨?_, ?_, ?_⟩
  · intro hdr
    simp only [TIMER2_COMPB_vect, hdr]
    norm_num
    split <;> simp [closeValve]
  · intro hdr hc
    simp only [TIMER1_COMPA_vect, hdr, if_true]
    rw [if_pos hc]
    split <;> simp [closeValve]
  · intro hdr hv
    simp only [TIMER2_COMPB_vect, hdr, hv]
    norm_num [openValve]

theorem drain_counter_reset_at_activation_witness :
    ((TIMER2_COMPB_vect true (TIMER2_COMPB_vect true initState)).draining
        = false ∧
     (TIMER2_COMPB_vect true (TIMER2_COMPB_vect true initState)).drainCycles
        = (TIMER2_COMPB_vect true initState).drainCycles) ∧
    ((TIMER1_COMPA_vect (TIMER1_COMPA_vect^[maxDrainCycles]
        (TIMER2_COMPB_vect true initState))).draining = false) ∧
    ((TIMER2_COMPB_vect true initState).draining = true ∧
     (TIMER2_COMPB_vect true initState).drainCycles = 0) := by
  refine ⟨(drain_counter_reset_at_activation _).1 (by decide), ?_,
    (drain_counter_reset_at_activation initState).2.2 (by decide) (by decide)⟩
  exact ((drain_counter_reset_at_activation
    (TIMER1_COMPA_vect^[maxDrainCycles]
      (TIMER2_COMPB_vect true initState))).2.1 (by decide) (by decide)).1

/-- C9 counterexample: with a panel-debounce check pending mid-countdown,
re-arming the manual-debounce timer (`INT4_vect`) leaves the panel timer armed
but zeroes the shared counter `TCNT2`, restarting the panel-debounce deadline
from 25 remaining prescaled ticks back to a full 125; likewise arming the
calibration pulse-train timer zeroes `TCNT1`, restarting a pending
drain-watchdog deadline. -/
theorem arming_restarts_sibling_deadline :
    pendingPanelState.TCNT2 = 100 ∧
    (INT4_vect pendingPanelState).OCIE2B = true ∧
    (INT4_vect pendingPanelState).TCNT2 = 0 ∧
    remainingTicks2B pendingPanelState = 25 ∧
    remainingTicks2B (INT4_vect pendingPanelState) = 125 ∧
    pendingDrainState.TCNT1 = 5000 ∧
    (startFlowTrial 100 10 pendingDrainState).OCIE1A = true ∧
    (startFlowTrial 100 10 pendingDrainState).TCNT1 = 0 ∧
    remainingTicks1A pendingDrainState = 10625 ∧
    remainingTicks1A (startFlowTrial 100 10 pendingDrainState) = 15625 := by
  decide

/-- C9 amended: each arming operation sets only its own interrupt-enable bit
and leaves every other timer's armed state unchanged, and it leaves the
counters of the other hardware timers unchanged; but it zeroes the hardware
counter it shares with its sibling compare channel, so a deadline pending on
that sibling channel is restarted: re-arming the manual debounce (`INT4`) or
panel debounce (`INT3`) resets `TCNT2`, and arming the calibration pulse-train
timer resets `TCNT1`, restarting a pending drain-watchdog deadline. -/
theorem arming_preserves_enables_resets_shared_counter
    (s : MachState) (d n : Nat) :
    ((INT4_vect s).OCIE2A = true ∧ (INT4_vect s).OCIE2B = s.OCIE2B ∧
     (INT4_vect s).OCIE1A = s.OCIE1A ∧ (INT4_vect s).OCIE1B = s.OCIE1B ∧
     (INT4_vect s).OCIE4A = s.OCIE4A ∧ (INT4_vect s).OCIE5A = s.OCIE5A ∧
     (INT4_vect s).TCNT1 = s.TCNT1 ∧ (INT4_vect s).TCNT4 = s.TCNT4 ∧
     (INT4_vect s).TCNT5 = s.TCNT5 ∧ (INT4_vect s).TCNT2 = 0) ∧
    ((INT3_vect s).OCIE2B = true ∧ (INT3_vect s).OCIE2A = s.OCIE2A ∧
     (INT3_vect s).OCIE1A = s.OCIE1A ∧ (INT3_vect s).OCIE1B = s.OCIE1B ∧
     (INT3_vect s).OCIE4A = s.OCIE4A ∧ (INT3_vect s).OCIE5A = s.OCIE5A ∧
     (INT3_vect s).TCNT1 = s.TCNT1 ∧ (INT3_vect s).TCNT4 = s.TCNT4 ∧
     (INT3_vect s).TCNT5 = s.TCNT5 ∧ (INT3_vect s).TCNT2 = 0) ∧
    ((startFlowTrial d n s).OCIE1B = true ∧
     (startFlowTrial d n s).OCIE1A = s.OCIE1A ∧
     (startFlowTrial d n s).OCIE2A = s.OCIE2A ∧
     (startFlowTrial d n s).OCIE2B = s.OCIE2B ∧
     (startFlowTrial d n s).OCIE4A = s.OCIE4A ∧
     (startFlowTrial d n s).OCIE5A = s.OCIE5A ∧
     (startFlowTrial d n s).TCNT2 = s.TCNT2 ∧
     (startFlowTrial d n s).TCNT4 = s.TCNT4 ∧
     (startFlowTrial d n s).TCNT5 = s.TCNT5 ∧
     (startFlowTrial d n s).TCNT1 = 0) :=
  ⟨⟨rfl, rfl, rfl, rfl, rfl, rfl, rfl, rfl, rfl, rfl⟩,
   ⟨rfl, rfl, rfl, rfl, rfl, rfl, rfl, rfl, rfl, rfl⟩,
   ⟨rfl, rfl, rfl, rfl, rfl, rfl, rfl, rfl, rfl, rfl⟩⟩

/-!
## Calibration pulse-train lemmas

`INT5_vect` never writes the digital-trigger pin, `digitalWriteTrigger false`
always leaves it LOW, and the 1 ms pulse clock counts up without touching the
pin until the old `tickCounter` exceeds `maxTicks`.
-/

theorem INT5_vect_trigPinLevel (s : MachState) :
    (INT5_vect s).trigPinLevel = s.trigPinLevel := by
  obtain ⟨m, d, dr, v, ic, sc, tc, mt, rc, mr, dc, vp, led, tpl, tpo,
    t1, t2, t4, t5, o1a, o1b, o2a, o2b, o4a, o5a⟩ := s
  cases tpl <;> cases d <;> cases v <;> cases dr <;> cases m <;> rfl

theorem digitalWriteTrigger_false_level (s : MachState) :
    (digitalWriteTrigger false s).trigPinLevel = false := by
  unfold digitalWriteTrigger
  split
  · rfl
  · rw [INT5_vect_trigPinLevel]

theorem pulseClockTick_no_rise (s : MachState)
    (h : (pulseClockTick s).trigPinLevel = true) : s.trigPinLevel = true := by
  unfold pulseClockTick at h
  split at h
  · simp only [TIMER5_COMPA_vect] at h
    split at h
    · rw [digitalWriteTrigger_false_level] at h
      exact absurd h (by decide)
    · exact h
  · exact h

theorem pulseClockTick_disabled (s : MachState) (h : s.OCIE5A = false) :
    pulseClockTick s = s := by
  unfold pulseClockTick
  rw [if_neg]
  rw [h]
  decide

theorem pulseClockTick_iterate_disabled (k : Nat) (s : MachState)
    (h : s.OCIE5A = false) : pulseClockTick^[k] s = s := by
  induction k with
  | zero => rfl
  | succ k ih =>
      rw [Function.iterate_succ_apply, pulseClockTick_disabled s h, ih]

/-- While the old `tickCounter` has not yet exceeded `maxTicks = d`, each
pulse-clock firing only increments `tickCounter`: after `k ≤ d + 1` firings
from `tickCounter = 0` the state has only its tick counter changed. -/
theorem pulse_ticks_eq (d : Nat) (s : MachState) (h5 : s.OCIE5A = true)
    (h0 : s.tickCounter = 0) (hm : s.maxTicks = d) (hlt : d + 2 < uintMod) :
    ∀ k, k ≤ d + 1 → pulseClockTick^[k] s = { s with tickCounter := k } := by
  have hu : uintMod = 65536 := rfl
  intro k
  induction k with
  | zero =>
      intro _
      rw [Function.iterate_zero_apply, ← h0]
  | succ k ih =>
      intro hk
      rw [Function.iterate_succ_apply', ih (by omega)]
      unfold pulseClockTick
      split
      next =>
        simp only [TIMER5_COMPA_vect]
        split
        next h2 =>
          exfalso
          have h3 : d < k := by simpa [hm] using h2
          omega
        next =>
          rw [show (k + 1) % uintMod = k + 1 from Nat.mod_eq_of_lt (by omega)]
      next h1 =>
        exact absurd h5 h1

theorem countingStep_iterate_fst (f : MachState → MachState) (k : Nat)
    (p : MachState × Nat) :
    ((countingStep f)^[k] p).1 = f^[k] p.1 := by
  induction k generalizing p with
  | zero => rfl
  | succ k ih =>
      rw [Function.iterate_succ_apply, Function.iterate_succ_apply]
      exact ih (countingStep f p)

theorem countingStep_snd_no_rise (f : MachState → MachState)
    (hf : ∀ s, (f s).trigPinLevel = true → s.trigPinLevel = true)
    (p : MachState × Nat) : (countingStep f p).2 = p.2 := by
  unfold countingStep
  rw [if_neg]
  · rfl
  · rintro ⟨h1, h2⟩
    rw [hf _ h2] at h1
    exact absurd h1 (by decide)

theorem countingStep_iterate_snd_no_rise (f : MachState → MachState)
    (hf : ∀ s, (f s).trigPinLevel = true → s.trigPinLevel = true) (k : Nat)
    (p : MachState × Nat) : ((countingStep f)^[k] p).2 = p.2 := by
  induction k generalizing p with
  | zero => rfl
  | succ k ih =>
      rw [Function.iterate_succ_apply, ih (countingStep f p),
        countingStep_snd_no_rise f hf p]

/-- The `d + 2` pulse-clock firing opportunities after release `r` is
asserted deassert it and return the machine to the inter-release state,
without counting any further rising edge. -/
theorem pulse_to_mid (d n r c : Nat) (hlt : d + 2 < uintMod) :
    (countingStep pulseClockTick)^[d + 2] (trialPulseState d n r, c) =
      (trialMidState d n r, c) := by
  have hu : uintMod = 65536 := rfl
  have hfst : pulseClockTick^[d + 2] (trialPulseState d n r) =
      trialMidState d n r := by
    rw [Function.iterate_succ_apply',
      pulse_ticks_eq d (trialPulseState d n r) rfl rfl rfl hlt (d + 1)
        (le_refl _)]
    unfold pulseClockTick
    split
    next =>
      simp only [TIMER5_COMPA_vect]
      split
      next =>
        rw [show (d + 1 + 1) % uintMod = d + 2 from Nat.mod_eq_of_lt
          (by omega)]
        rfl
      next h2 =>
        exact absurd (Nat.lt_succ_self d) h2
    next h1 =>
      exact absurd rfl h1
  refine Prod.ext ?_ ?_
  · rw [countingStep_iterate_fst, hfst]
  · rw [countingStep_iterate_snd_no_rise pulseClockTick pulseClockTick_no_rise]

/-- A non-final `TIMER1_COMPB_vect` firing from the inter-release state
asserts the next release and counts one rising edge. -/
theorem assert_from_mid (d n r c : Nat) (h : r + 1 < n)
    (hr : r + 1 < uintMod) :
    countingStep TIMER1_COMPB_vect (trialMidState d n r, c) =
      (trialPulseState d n (r + 1), c + 1) := by
  have hmod : (r + 1) % uintMod = r + 1 := Nat.mod_eq_of_lt hr
  unfold countingStep TIMER1_COMPB_vect
  simp only [trialMidState, trialPulseState, initState, hmod]
  rw [if_pos h]
  simp [digitalWriteTrigger, INT5_vect, openValve, hitVoltage]

/-- The first `TIMER1_COMPB_vect` firing, immediately after `loop` arms the
pulse-train timer from the post-`setup()` state, asserts release 1. -/
theorem assert_from_start (d n c : Nat) (h : 1 < n) (hn : n < uintMod)
    (hd : d < uintMod) :
    countingStep TIMER1_COMPB_vect (startFlowTrial d n initState, c) =
      (trialPulseState d n 1, c + 1) := by
  have hmodn : n % uintMod = n := Nat.mod_eq_of_lt hn
  have hmodd : d % uintMod = d := Nat.mod_eq_of_lt hd
  unfold countingStep TIMER1_COMPB_vect
  simp only [startFlowTrial, trialPulseState, initState, hmodn, hmodd]
  rw [show (0 + 1) % uintMod = 1 from rfl]
  rw [if_pos h]
  simp [digitalWriteTrigger, INT5_vect, openValve, hitVoltage]

/-- A full non-final round of a trial: one 1 Hz firing plus the pulse clock
takes inter-release state `r` to inter-release state `r + 1` and counts one
release. -/
theorem round_mid (d n r c : Nat) (h : r + 1 < n) (hr : r + 1 < uintMod)
    (hlt : d + 2 < uintMod) :
    trialRound d (trialMidState d n r, c) =
      (trialMidState d n (r + 1), c + 1) := by
  unfold trialRound
  rw [assert_from_mid d n r c h hr, pulse_to_mid d n (r + 1) (c + 1) hlt]

/-- The first full round of a trial with `1 < n`. -/
theorem round_start (d n c : Nat) (h : 1 < n) (hn : n < uintMod)
    (hlt : d + 2 < uintMod) :
    trialRound d (startFlowTrial d n initState, c) =
      (trialMidState d n 1, c + 1) := by
  unfold trialRound
  rw [assert_from_start d n c h hn (by omega), pulse_to_mid d n 1 (c + 1) hlt]

/-- The final (`n`-th) round: the 1 Hz firing takes the else-branch, raises
`sequenceComplete`, and asserts nothing; the pulse clock is disabled and does
nothing. -/
theorem round_final (d n c : Nat) (hpos : 1 ≤ n) (hn : n < uintMod) :
    trialRound d (trialMidState d n (n - 1), c) = (trialEndState d n, c) := by
  have hmod : (n - 1 + 1) % uintMod = n := by
    have he : n - 1 + 1 = n := by omega
    rw [he]
    exact Nat.mod_eq_of_lt hn
  unfold trialRound
  have hstep : countingStep TIMER1_COMPB_vect (trialMidState d n (n - 1), c) =
      (trialEndState d n, c) := by
    unfold countingStep TIMER1_COMPB_vect
    simp only [trialMidState, trialEndState, initState, hmod]
    rw [if_neg (lt_irrefl n)]
    simp
  rw [hstep]
  refine Prod.ext ?_ ?_
  · rw [countingStep_iterate_fst,
      pulseClockTick_iterate_disabled (d + 2) (trialEndState d n) rfl]
  · rw [countingStep_iterate_snd_no_rise pulseClockTick pulseClockTick_no_rise]

theorem INT5_vect_tickCounter (s : MachState) :
    (INT5_vect s).tickCounter = s.tickCounter := by
  obtain ⟨m, d, dr, v, ic, sc, tc, mt, rc, mr, dc, vp, led, tpl, tpo,
    t1, t2, t4, t5, o1a, o1b, o2a, o2b, o4a, o5a⟩ := s
  cases tpl <;> cases d <;> cases v <;> cases dr <;> cases m <;> rfl

theorem digitalWriteTrigger_tickCounter (lvl : Bool) (s : MachState) :
    (digitalWriteTrigger lvl s).tickCounter = s.tickCounter := by
  unfold digitalWriteTrigger
  split
  · rfl
  · rw [INT5_vect_tickCounter]

/-- The single round of a trial with `n = 1`: the first 1 Hz firing already
takes the else-branch and completes the sequence with no release asserted. -/
theorem round_single (d c : Nat) :
    trialRound d (startFlowTrial d 1 initState, c) =
      ({ startFlowTrial d 1 initState with releaseCount := 1,
                                           OCIE1B := false,
                                           sequenceComplete := true,
                                           trigPinIsOutput := false }, c) := by
  unfold trialRound
  have hstep : countingStep TIMER1_COMPB_vect
      (startFlowTrial d 1 initState, c) =
      ({ startFlowTrial d 1 initState with releaseCount := 1,
                                           OCIE1B := false,
                                           sequenceComplete := true,
                                           trigPinIsOutput := false }, c) := by
    unfold countingStep TIMER1_COMPB_vect startFlowTrial initState
    norm_num [uintMod]
  rw [hstep]
  refine Prod.ext ?_ ?_
  · rw [countingStep_iterate_fst, pulseClockTick_iterate_disabled _ _ rfl]
  · rw [countingStep_iterate_snd_no_rise pulseClockTick pulseClockTick_no_rise]

set_option maxRecDepth 1000000 in
/-- C2 counterexample: the flow-calibration trial with `duration = 100` and
`count = 10` run from the post-`setup()` state asserts the synthetic external
trigger only 9 times (never 10), yet completes with `releaseCount = 10` —
`++releaseCount < maxReleases` starts a release only on the first
`maxReleases - 1` firings of the pulse-train clock. -/
theorem flow_trial_ten_delivers_nine :
    (flowTrialRun 100 10 initState).2 = 9 ∧
    ¬(flowTrialRun 100 10 initState).2 = 10 ∧
    (flowTrialRun 100 10 initState).1.sequenceComplete = true ∧
    (flowTrialRun 100 10 initState).1.releaseCount = 10 := by
  decide

/-- C2 amended: a flow-calibration trial with target count `n ≥ 1` asserts
and deasserts the synthetic external trigger exactly `n - 1` times; the
completed-release counter is incremented on every 1 Hz pulse-train firing
(not on the deassertions), ends at `n`, and `sequenceComplete` is raised by
the `n`-th firing. -/
theorem flow_trial_delivers_count_minus_one (d n : Nat) (h1 : 1 ≤ n)
    (h2 : n < uintMod) (h3 : d + 2 < uintMod) :
    (flowTrialRun d n initState).2 = n - 1 ∧
    (flowTrialRun d n initState).1.sequenceComplete = true ∧
    (flowTrialRun d n initState).1.releaseCount = n := by
  have hu : uintMod = 65536 := rfl
  rcases Nat.lt_or_ge n 2 with hn2 | hn2
  · have hn1 : n = 1 := by omega
    subst hn1
    unfold flowTrialRun
    rw [Function.iterate_one, round_single d 0]
    exact ⟨rfl, rfl, rfl⟩
  · have main : ∀ r, 1 ≤ r → r ≤ n - 1 →
        (trialRound d)^[r] (startFlowTrial d n initState, 0) =
          (trialMidState d n r, r) := by
      intro r
      induction r with
      | zero => intro h; omega
      | succ k ih =>
          intro _ hr
          rcases Nat.eq_zero_or_pos k with hk0 | hkpos
          · subst hk0
            rw [Function.iterate_one]
            exact round_start d n 0 (by omega) h2 h3
          · rw [Function.iterate_succ_apply', ih (by omega) (by omega),
              round_mid d n k k (by omega) (by omega) h3]
    obtain ⟨m, rfl⟩ : ∃ m, n = m + 2 := ⟨n - 2, by omega⟩
    unfold flowTrialRun
    rw [show m + 2 = (m + 1) + 1 from rfl, Function.iterate_succ_apply',
      main (m + 1) (by omega) (by omega)]
    have hf := round_final d (m + 2) (m + 1) (by omega) h2
    rw [show (m + 2) - 1 = m + 1 from rfl] at hf
    rw [hf]
    refine ⟨?_, rfl, rfl⟩
    show m + 1 = m + 2 - 1
    omega

theorem flow_trial_delivers_count_minus_one_witness :
    (flowTrialRun 2 3 initState).2 = 3 - 1 ∧
    (flowTrialRun 2 3 initState).1.sequenceComplete = true ∧
    (flowTrialRun 2 3 initState).1.releaseCount = 3 :=
  flow_trial_delivers_count_minus_one 2 3 (by decide) (by decide) (by decide)

set_option maxRecDepth 100000 in
/-- C4 counterexample: in the `duration = 100` trial, the synthetic trigger
asserted by the first pulse-train firing is still HIGH after 100 and even 101
pulse-clock firings, and goes LOW only on the 102nd —
`tickCounter++ > maxTicks` holds the release for `maxTicks + 2` ticks, not
`maxTicks`. -/
theorem pulse_still_high_after_100_ticks :
    (countingStep TIMER1_COMPB_vect (startFlowTrial 100 10 initState, 0)).1
        = trialPulseState 100 10 1 ∧
    (pulseClockTick^[100] (trialPulseState 100 10 1)).trigPinLevel = true ∧
    (pulseClockTick^[101] (trialPulseState 100 10 1)).trigPinLevel = true ∧
    (pulseClockTick^[102] (trialPulseState 100 10 1)).trigPinLevel = false := by
  decide

/-- C4 amended: a calibration release with `maxTicks = d` stays asserted
through the first `d + 1` pulse-clock firings and is deasserted on firing
`d + 2` (the post-incremented `tickCounter` must exceed `maxTicks`); the tick
counter is reset to zero by every release-starting pulse-train firing. -/
theorem pulse_held_for_maxTicks_plus_two (d : Nat) (s : MachState)
    (h5 : s.OCIE5A = true) (h0 : s.tickCounter = 0) (hm : s.maxTicks = d)
    (hlvl : s.trigPinLevel = true) (hlt : d + 2 < uintMod) :
    (∀ k, k ≤ d + 1 → (pulseClockTick^[k] s).trigPinLevel = true) ∧
    (pulseClockTick^[d + 2] s).trigPinLevel = false ∧
    (∀ t : MachState, (t.releaseCount + 1) % uintMod < t.maxReleases →
      (TIMER1_COMPB_vect t).tickCounter = 0) := by
  refine ⟨?_, ?_, ?_⟩
  · intro k hk
    rw [pulse_ticks_eq d s h5 h0 hm hlt k hk]
    exact hlvl
  · rw [Function.iterate_succ_apply',
      pulse_ticks_eq d s h5 h0 hm hlt (d + 1) (le_refl _)]
    unfold pulseClockTick
    split
    next =>
      simp only [TIMER5_COMPA_vect]
      split
      next => exact digitalWriteTrigger_false_level _
      next h2 => exact absurd (by simp [hm]) h2
    next h1 => exact absurd h5 h1
  · intro t ht
    unfold TIMER1_COMPB_vect
    rw [if_pos ht]
    simp [digitalWriteTrigger_tickCounter]

theorem pulse_held_for_maxTicks_plus_two_witness :
    (pulseClockTick^[4] (trialPulseState 3 2 1)).trigPinLevel = true ∧
    (pulseClockTick^[5] (trialPulseState 3 2 1)).trigPinLevel = false := by
  have h := pulse_held_for_maxTicks_plus_two 3 (trialPulseState 3 2 1)
    rfl rfl rfl rfl (by decide)
  exact ⟨h.1 4 (by decide), h.2.1⟩

end Lplrs2018
